import Mathlib

/-!
Shallow embedding of the Arvyn extension front-end (arvyn-extension/app.js,
arvyn-extension/socket.js, and the second widget draft) and proofs about the
session/approval behaviour it implements.

JavaScript values that may be `undefined` are modelled as `Option`; JS string
truthiness (`""` and `undefined`/`null` are falsy) is modelled explicitly.
-/

/-- JS template interpolation of a possibly-undefined string:
`undefined` renders as the text "undefined". -/
def jsStr (x : Option String) : String :=
  match x with
  | some s => s
  | none => "undefined"

/-- JS `x || dflt` on a possibly-undefined string: falsy (`undefined` or `""`)
falls through to the default. -/
def jsOrStr (x : Option String) (dflt : String) : String :=
  match x with
  | some s => if s = "" then dflt else s
  | none => dflt

/-- JS truthiness of a possibly-undefined string (`""`, `null`, `undefined` are falsy). -/
def truthyStr (x : Option String) : Bool :=
  match x with
  | some s => s ≠ ""
  | none => false

/-- The `details` payload of a status event (app.js / part_001). Every field is
duck-typed in the source and may be absent. Amounts are JS numbers, idealized
as rationals. -/
structure Details where
  action : Option String
  amount : Option ℚ
  recipient : Option String
  session_id : Option String
  transcribed_text : Option String
deriving DecidableEq

/-- Exactly two fractional digit characters, as produced by `toFixed(2)`
for a fractional part `n < 100`. -/
def twoDigitFrac (n : Nat) : String :=
  String.mk [Nat.digitChar (n / 10), Nat.digitChar (n % 10)]

/-- Whole number of cents of an idealized amount: `⌊100q + 1/2⌋`, computed as
`(200·num + den) fdiv (2·den)`. -/
def toFixedCents (q : ℚ) : Int :=
  Int.fdiv (q.num * 200 + (q.den : Int)) (2 * (q.den : Int))

/-- Model of JS `parseFloat(x).toFixed(2)` on an idealized (rational) number:
round to a whole number of cents, then render integer part, a point, and
exactly two fractional digits. -/
def toFixed2 (q : ℚ) : String :=
  if toFixedCents q < 0 then
    "-" ++ toString ((-toFixedCents q).toNat / 100) ++ "."
      ++ twoDigitFrac ((-toFixedCents q).toNat % 100)
  else
    toString ((toFixedCents q).toNat / 100) ++ "."
      ++ twoDigitFrac ((toFixedCents q).toNat % 100)

/-- Fractional decimal digits of `num / den` (with `num < den`), up to `fuel`
digits. Used to model JS number-to-string for terminating decimals. -/
def fracDigits : Nat → Nat → Nat → List Char
  | 0, _, _ => []
  | fuel + 1, num, den =>
    if num = 0 then []
    else Nat.digitChar (num * 10 / den) :: fracDigits fuel (num * 10 % den) den

/-- Idealized model of JS default number-to-string (template interpolation of a
number): an integer-valued number renders with no decimal point at all; a
fractional one renders its terminating decimal expansion. Exact for
integer-valued amounts, which is all the proofs below evaluate it on. -/
def jsNumToString (q : ℚ) : String :=
  let sign := if q < 0 then "-" else ""
  let ipart := q.num.natAbs / q.den
  let fnum := q.num.natAbs % q.den
  if fnum = 0 then sign ++ toString ipart
  else sign ++ toString ipart ++ "." ++ String.mk (fracDigits 17 fnum q.den)

/-- The approval card drawn by app.js `updateWidgetStatus` on
`AWAITING_APPROVAL` (app.js lines 39-56): texts rendered into the card and the
session id wired into the Approve/Cancel button handlers. -/
structure ApprovalCard where
  actionText : String
  amountText : String
  recipientText : String
  buttonSessionId : Option String
deriving DecidableEq

/-- Card contents as app.js builds them: `details.action || 'N/A'`,
`details.amount !== undefined ? parseFloat(details.amount).toFixed(2) : 'N/A'`,
`details.recipient || 'N/A'`, buttons bound to `details.session_id`. -/
def mkCard (details : Details) : ApprovalCard :=
  { actionText := jsOrStr details.action "N/A"
    amountText :=
      match details.amount with
      | some a => toFixed2 a
      | none => "N/A"
    recipientText := jsOrStr details.recipient "N/A"
    buttonSessionId := details.session_id }

/-- The widget DOM as app.js `updateWidgetStatus` redraws it: status line,
mic button (label, disabled flag, whether the click listener was rebound),
the optional interpretation feedback, and the optional approval card. -/
structure Widget where
  message : String
  statusCode : Option String
  micLabel : String
  micDisabled : Bool
  micListenerAttached : Bool
  feedback : Option String
  card : Option ApprovalCard
deriving DecidableEq

/-- Module state of app.js: `isRecording`, `currentSessionId`, and the widget
contents (the visible state). -/
structure AppState where
  isRecording : Bool
  currentSessionId : Option String
  widget : Widget
deriving DecidableEq

/-- app.js line 21: the mic is paused exactly for `AWAITING_APPROVAL` and
`CRITICAL_HALT`. -/
def isPausedStatus (status_code : Option String) : Bool :=
  status_code = some "AWAITING_APPROVAL" || status_code = some "CRITICAL_HALT"

/-- app.js `updateWidgetStatus(message, status_code, details)`: redraws the
widget. The mic button is disabled and left without a listener when paused;
the feedback line appears on `PARSING_COMPLETE` with a truthy
`transcribed_text`; the approval card appears on `AWAITING_APPROVAL` with
truthy `details`. Touches only the widget, never `isRecording` or
`currentSessionId`. -/
def updateWidgetStatus (s : AppState) (message : Option String)
    (status_code : Option String) (details : Option Details) : AppState :=
  let isPaused := isPausedStatus status_code
  { s with
    widget :=
      { message := jsStr message
        statusCode := status_code
        micLabel := if s.isRecording then "Stop Recording" else "Start Command"
        micDisabled := isPaused
        micListenerAttached := !isPaused
        feedback :=
          if status_code = some "PARSING_COMPLETE" then
            match details with
            | some d =>
              match d.transcribed_text with
              | some t => if t = "" then none else some t
              | none => none
            | none => none
          else none
        card :=
          if status_code = some "AWAITING_APPROVAL" then
            match details with
            | some d => some (mkCard d)
            | none => none
          else none } }

/-- Outbound realtime-channel events emitted by app.js. -/
inductive OutEvent where
  | userDecision (decision : String) (session_id : String)
deriving DecidableEq

/-- app.js `handleDecision(decision, session_id)` (lines 118-126): if the
socket handle exists and `session_id` is truthy, emit one `user_decision` and
redraw with `RESUMING`; otherwise do nothing. Returns the new state and the
list of events emitted by this call. -/
def handleDecision (s : AppState) (socketPresent : Bool) (decision : String)
    (session_id : Option String) : AppState × List OutEvent :=
  match session_id with
  | some sid =>
    if socketPresent && sid ≠ "" then
      (updateWidgetStatus s (some "Decision Sent. Resuming...") (some "RESUMING") none,
        [OutEvent.userDecision decision sid])
    else (s, [])
  | none => (s, [])

/-- Result of `getUserMedia` at the one suspension point in `toggleRecording`. -/
inductive MicAccess where
  | granted
  | denied
deriving DecidableEq

/-- app.js `toggleRecording` (lines 68-94): when not recording, try to acquire
the mic — on success flip `isRecording` and show `RECORDING`, on failure show
`ERROR_MIC`; when recording, stop and show `UPLOADING`. -/
def toggleRecording (s : AppState) (mic : MicAccess) : AppState :=
  if !s.isRecording then
    match mic with
    | MicAccess.granted =>
      updateWidgetStatus { s with isRecording := true }
        (some "Listening...") (some "RECORDING") none
    | MicAccess.denied =>
      updateWidgetStatus s (some "Microphone Error") (some "ERROR_MIC") none
  else
    updateWidgetStatus { s with isRecording := false }
      (some "Processing...") (some "UPLOADING") none

/-- A click on the mic button: the handler runs only if the redraw attached a
listener and the button is not disabled (app.js lines 60-63); otherwise the
click is a no-op. -/
def clickMicButton (s : AppState) (mic : MicAccess) : AppState :=
  if s.widget.micListenerAttached && !s.widget.micDisabled then toggleRecording s mic
  else s

/-- Shape of the single upload request issued by `submitCommand`. -/
structure UploadRequest where
  method : String
  path : String
  fieldName : String
  fileName : String
deriving DecidableEq

/-- The request app.js `submitCommand` builds: `POST /command` with multipart
field `audio_file`, filename `command.webm` (lines 96-104). -/
def commandRequest : UploadRequest :=
  { method := "POST", path := "/command", fieldName := "audio_file", fileName := "command.webm" }

/-- Outcome of the one `fetch` in `submitCommand`: a 2xx response with parsed
JSON (whose `session_id` field may be absent), a 2xx response whose body fails
to parse, a non-2xx response, or a transport failure. -/
inductive FetchOutcome where
  | ok (session_id : Option String)
  | okBadJson
  | httpErr
  | netErr
deriving DecidableEq

/-- What one call to `submitCommand` did: the resulting state, the request it
issued, and how many fetch attempts it made. -/
structure SubmitTrace where
  state : AppState
  request : UploadRequest
  fetchCalls : Nat
deriving DecidableEq

/-- app.js `submitCommand(audioBlob)` (lines 96-114): exactly one fetch of
`commandRequest`; on a 2xx response with parseable JSON adopt `data.session_id`
as the current session; on non-2xx, transport failure, or unparseable body,
show `ERROR_SUBMIT` (the catch block) and leave the session id untouched. -/
def submitCommand (s : AppState) (outcome : FetchOutcome) : SubmitTrace :=
  match outcome with
  | FetchOutcome.ok sid =>
    { state := { s with currentSessionId := sid }
      request := commandRequest
      fetchCalls := 1 }
  | _ =>
    { state := updateWidgetStatus s (some "Submission Failed") (some "ERROR_SUBMIT") none
      request := commandRequest
      fetchCalls := 1 }

/-- Inbound `status_update` payload: every field duck-typed and possibly absent. -/
structure Payload where
  message : Option String
  status : Option String
  session_id : Option String
  details : Option Details
deriving DecidableEq

/-- The app.js `status_update` listener (lines 130-133): passes the payload
straight to `updateWidgetStatus`, with no inspection of `session_id` and no
comparison against `currentSessionId`. -/
def onStatusUpdate (s : AppState) (payload : Payload) : AppState :=
  updateWidgetStatus s payload.message payload.status payload.details

/-- Processing a sequence of inbound status events in arrival order. -/
def runStatusEvents (s : AppState) (evs : List Payload) : AppState :=
  evs.foldl onStatusUpdate s

/-- The `disconnect` listener (socket.js lines 18-24): unconditionally redraw
with `CRITICAL_HALT`. -/
def onDisconnect (s : AppState) : AppState :=
  updateWidgetStatus s
    (some "ERROR: Agent connection lost. Please verify your bank account manually.")
    (some "CRITICAL_HALT") none

/-- The approval card of the second widget draft (part_001 `renderApprovalCard`,
lines 200-216): interpolates `details.action`, `details.amount` and
`details.recipient` directly into the markup — the amount gets no `toFixed`
formatting — and binds the Approve/Reject buttons to the `sessionId` argument. -/
structure Part001Card where
  actionText : String
  amountText : String
  recipientText : String
  buttonSessionId : Option String
deriving DecidableEq

/-- part_001 `renderApprovalCard(sessionId, details)`: raw template
interpolation of the details fields. -/
def renderApprovalCard (sessionId : Option String) (details : Details) : Part001Card :=
  { actionText := jsStr details.action
    amountText :=
      match details.amount with
      | some a => jsNumToString a
      | none => "undefined"
    recipientText := jsStr details.recipient
    buttonSessionId := sessionId }

/-- Count characters after a `.` in a reversed character list: `some k` if a
dot is found with `k` characters after it (in the original order), else `none`. -/
def countAfterDotRev : List Char → Option Nat
  | [] => none
  | c :: cs => if c = '.' then some 0 else (countAfterDotRev cs).map Nat.succ

/-- Number of characters after the last decimal point of a rendered number
(0 when there is no point at all). -/
def digitsAfterPoint (s : String) : Nat :=
  (countAfterDotRev s.data.reverse).getD 0

/-! ### Concrete fixtures -/

/-- An idle widget as drawn after the initial `updateWidgetStatus("Arvyn: Ready", 'ONLINE')`. -/
def w0 : Widget :=
  { message := "Arvyn: Ready", statusCode := some "ONLINE", micLabel := "Start Command"
    micDisabled := false, micListenerAttached := true, feedback := none, card := none }

/-- A controller state with adopted session `"S1"`, not recording, idle widget. -/
def s0 : AppState :=
  { isRecording := false, currentSessionId := some "S1", widget := w0 }

/-- A status event for a different session, `"S2"`. -/
def eS2 : Payload :=
  { message := some "Executing step", status := some "EXECUTING"
    session_id := some "S2", details := none }

/-- A malformed status event: `status` and `session_id` both absent. -/
def pMalformed : Payload :=
  { message := some "hello", status := none, session_id := none, details := none }

/-- Approval details with an integer amount and a session id. -/
def dt250 : Details :=
  { action := some "wire_transfer", amount := some 250, recipient := some "Jane Doe"
    session_id := some "abc123", transcribed_text := none }

/-- Approval details that lack a `session_id`. -/
def dtNoSession : Details :=
  { action := some "wire_transfer", amount := some 250, recipient := some "Jane Doe"
    session_id := none, transcribed_text := none }

/-! ### Helper lemmas -/

/-- A decimal digit character is never the decimal point. -/
theorem digitChar_ne_dot (n : Nat) (h : n < 10) : Nat.digitChar n ≠ '.' := by
  interval_cases n <;> decide

/-- Counting from the reversed end, two non-dot characters before the dot give 2. -/
theorem countAfterDotRev_two (c1 c2 : Char) (t : List Char)
    (h1 : c1 ≠ '.') (h2 : c2 ≠ '.') :
    countAfterDotRev (c2 :: c1 :: '.' :: t) = some 2 := by
  simp [countAfterDotRev, h1, h2]

/-- A string of the form `t ++ "." ++ ⟨[c1, c2]⟩` with non-dot `c1, c2` shows
exactly two characters after its last decimal point. -/
theorem digitsAfterPoint_append_two (t : String) (c1 c2 : Char)
    (h1 : c1 ≠ '.') (h2 : c2 ≠ '.') :
    digitsAfterPoint (t ++ "." ++ String.mk [c1, c2]) = 2 := by
  have hdata : (t ++ "." ++ String.mk [c1, c2]).data
      = t.data ++ ('.' :: [c1, c2]) := by
    simp [String.data_append]
  simp [digitsAfterPoint, hdata, countAfterDotRev, h1, h2]

/-- `toFixed2` always renders exactly two characters after the decimal point. -/
theorem toFixed2_digitsAfterPoint (q : ℚ) : digitsAfterPoint (toFixed2 q) = 2 := by
  unfold toFixed2 twoDigitFrac
  split
  · exact digitsAfterPoint_append_two _ _ _
      (digitChar_ne_dot _ (by omega)) (digitChar_ne_dot _ (by omega))
  · exact digitsAfterPoint_append_two _ _ _
      (digitChar_ne_dot _ (by omega)) (digitChar_ne_dot _ (by omega))

/-! ### Claim theorems -/

/-- Claim C1, counterexample: with current session `"S1"`, a status event for
session `"S2"` does not leave the state unchanged — the listener applies it,
changing the visible status to `EXECUTING`. -/
theorem mismatched_session_event_mutates_state :
    s0.currentSessionId = some "S1" ∧ eS2.session_id = some "S2" ∧
    (onStatusUpdate s0 eS2).widget ≠ s0.widget ∧
    (onStatusUpdate s0 eS2).widget.statusCode = some "EXECUTING" := by
  decide

/-- Claim C1, amended: after any sequence of inbound status events, the
controller's visible state equals the status (and message) of the last event,
regardless of any event's `session_id` — the listener performs no session
filtering, so events for other session ids are applied, not dropped. -/
theorem visible_state_is_last_event_status (s : AppState) (evs : List Payload) (e : Payload) :
    (runStatusEvents s (evs ++ [e])).widget.statusCode = e.status ∧
    (runStatusEvents s (evs ++ [e])).widget.message = jsStr e.message := by
  simp [runStatusEvents, List.foldl_append, onStatusUpdate, updateWidgetStatus]

/-- Claim C2, counterexample: calling `handleDecision` twice with the same
session id emits a `user_decision` on each call — two in total, and the second
call is not a no-op. -/
theorem second_decision_call_emits_again :
    (handleDecision s0 true "approved" (some "abc123")).2
      = [OutEvent.userDecision "approved" "abc123"] ∧
    (handleDecision (handleDecision s0 true "approved" (some "abc123")).1
      true "approved" (some "abc123")).2
      = [OutEvent.userDecision "approved" "abc123"] := by
  decide

/-- Claim C2, amended: every call to `handleDecision` with the socket present
and a truthy session id emits exactly one `user_decision`; there is no
single-use guard, so a second call for the same session id emits a second
decision (only the widget redraw removing the buttons prevents a second
gesture in the UI). -/
theorem each_decision_call_emits_one (s : AppState) (d : String) (sid : String)
    (h : sid ≠ "") :
    (handleDecision s true d (some sid)).2 = [OutEvent.userDecision d sid] ∧
    (handleDecision (handleDecision s true d (some sid)).1 true d (some sid)).2
      = [OutEvent.userDecision d sid] := by
  simp [handleDecision, h]

/-- Witness for the amended C2 at a concrete state and session id. -/
theorem each_decision_call_emits_one_witness :
    (handleDecision s0 true "approved" (some "abc123")).2
      = [OutEvent.userDecision "approved" "abc123"] ∧
    (handleDecision (handleDecision s0 true "approved" (some "abc123")).1
      true "approved" (some "abc123")).2
      = [OutEvent.userDecision "approved" "abc123"] :=
  each_decision_call_emits_one s0 "approved" "abc123" (by decide)

/-- Claim C3: from every state — including one whose widget shows
`AWAITING_APPROVAL` — the `disconnect` listener transitions the visible state
to `CRITICAL_HALT`. -/
theorem disconnect_forces_critical_halt (s : AppState) :
    (onDisconnect s).widget.statusCode = some "CRITICAL_HALT" := rfl

/-- Claim C4, counterexample: with current session `"S1"`, a decision call for
session `"S2"` is not a no-op — it emits a `user_decision` for `"S2"` and
changes the visible state to `RESUMING`. -/
theorem stale_session_decision_still_emitted :
    s0.currentSessionId = some "S1" ∧
    (handleDecision s0 true "approved" (some "S2")).2
      = [OutEvent.userDecision "approved" "S2"] ∧
    (handleDecision s0 true "approved" (some "S2")).1.widget.statusCode
      = some "RESUMING" := by
  decide

/-- Claim C4, amended: `handleDecision` never compares its session id argument
against `currentSessionId`; any call with the socket present and a truthy
session id — matching the current session or not — emits a `user_decision` and
transitions the visible state to `RESUMING`. -/
theorem decision_ignores_current_session (s : AppState) (d : String) (sid : String)
    (h : sid ≠ "") :
    (handleDecision s true d (some sid)).2 = [OutEvent.userDecision d sid] ∧
    (handleDecision s true d (some sid)).1.widget.statusCode = some "RESUMING" := by
  simp [handleDecision, h, updateWidgetStatus]

/-- Witness for the amended C4 at a state whose current session differs from
the decision's session id. -/
theorem decision_ignores_current_session_witness :
    (handleDecision s0 true "approved" (some "S2")).2
      = [OutEvent.userDecision "approved" "S2"] ∧
    (handleDecision s0 true "approved" (some "S2")).1.widget.statusCode
      = some "RESUMING" :=
  decision_ignores_current_session s0 "approved" "S2" (by decide)

/-- Claim C5: after the widget is redrawn with status `AWAITING_APPROVAL` or
`CRITICAL_HALT`, the mic button is disabled and has no listener, so a click on
it is a no-op: no capture can start during the conscious pause or after a
critical halt. -/
theorem no_capture_while_paused (s : AppState) (msg : Option String)
    (st : Option String) (details : Option Details) (mic : MicAccess)
    (h : st = some "AWAITING_APPROVAL" ∨ st = some "CRITICAL_HALT") :
    clickMicButton (updateWidgetStatus s msg st details) mic
      = updateWidgetStatus s msg st details := by
  rcases h with h | h <;> subst h <;>
    simp [clickMicButton, updateWidgetStatus, isPausedStatus]

/-- Witness for C5: a click during a concrete conscious pause does nothing. -/
theorem no_capture_while_paused_witness :
    clickMicButton
        (updateWidgetStatus s0 (some "Approval required") (some "AWAITING_APPROVAL") (some dt250))
        MicAccess.granted
      = updateWidgetStatus s0 (some "Approval required") (some "AWAITING_APPROVAL") (some dt250) :=
  no_capture_while_paused s0 (some "Approval required") (some "AWAITING_APPROVAL")
    (some dt250) MicAccess.granted (Or.inl rfl)

/-- Claim C6, counterexample: an event missing both `status` and `sessionId`
is not dropped — processing it overwrites the widget (message `"hello"`,
status `undefined`), so the state does change. -/
theorem malformed_event_not_dropped :
    pMalformed.status = none ∧ pMalformed.session_id = none ∧
    (onStatusUpdate s0 pMalformed).widget ≠ s0.widget ∧
    (onStatusUpdate s0 pMalformed).widget.message = "hello" ∧
    (onStatusUpdate s0 pMalformed).widget.statusCode = none := by
  decide

/-- Claim C6, amended: processing a malformed inbound event (missing `status`
or `sessionId`) never throws into the caller — the listener is a total
function of the payload — but the event is not logged-and-dropped: it is
handed to `updateWidgetStatus` unchanged and overwrites the visible message
and status with the missing (`undefined`) values. -/
theorem malformed_event_total_but_applied (s : AppState) (p : Payload)
    (h : p.status = none ∨ p.session_id = none) :
    onStatusUpdate s p = updateWidgetStatus s p.message p.status p.details ∧
    (onStatusUpdate s p).widget.message = jsStr p.message ∧
    (onStatusUpdate s p).widget.statusCode = p.status :=
  ⟨rfl, rfl, rfl⟩

/-- Witness for the amended C6 at the concrete malformed event. -/
theorem malformed_event_total_but_applied_witness :
    onStatusUpdate s0 pMalformed
      = updateWidgetStatus s0 pMalformed.message pMalformed.status pMalformed.details ∧
    (onStatusUpdate s0 pMalformed).widget.message = jsStr pMalformed.message ∧
    (onStatusUpdate s0 pMalformed).widget.statusCode = pMalformed.status :=
  malformed_event_total_but_applied s0 pMalformed (Or.inl rfl)

/-- Claim C7: `submitCommand` makes exactly one upload attempt, always of the
request `POST /command` with multipart field `audio_file`; a non-2xx response,
a transport failure, or an unparseable body leads to `ERROR_SUBMIT` with the
current session id unchanged, while a parsed success response adopts the
returned `session_id` as the current session. -/
theorem submitCommand_single_attempt_spec (s : AppState) (outcome : FetchOutcome) :
    (submitCommand s outcome).request = commandRequest ∧
    (submitCommand s outcome).fetchCalls = 1 ∧
    ((outcome = FetchOutcome.httpErr ∨ outcome = FetchOutcome.netErr ∨
        outcome = FetchOutcome.okBadJson) →
      (submitCommand s outcome).state.widget.statusCode = some "ERROR_SUBMIT" ∧
      (submitCommand s outcome).state.currentSessionId = s.currentSessionId) ∧
    (∀ sid, outcome = FetchOutcome.ok sid →
      (submitCommand s outcome).state.currentSessionId = sid) := by
  cases outcome <;> simp [submitCommand, updateWidgetStatus, commandRequest]

/-- Witness for C7: a concrete failed upload reports `ERROR_SUBMIT` and keeps
the session; a concrete success adopts the returned id. -/
theorem submitCommand_single_attempt_spec_witness :
    (submitCommand s0 FetchOutcome.httpErr).state.widget.statusCode = some "ERROR_SUBMIT" ∧
    (submitCommand s0 FetchOutcome.httpErr).state.currentSessionId = s0.currentSessionId ∧
    (submitCommand s0 (FetchOutcome.ok (some "abc123"))).state.currentSessionId
      = some "abc123" :=
  ⟨((submitCommand_single_attempt_spec s0 FetchOutcome.httpErr).2.2.1 (Or.inl rfl)).1,
   ((submitCommand_single_attempt_spec s0 FetchOutcome.httpErr).2.2.1 (Or.inl rfl)).2,
   (submitCommand_single_attempt_spec s0 (FetchOutcome.ok (some "abc123"))).2.2.2
     (some "abc123") rfl⟩

/-- Claim C8, counterexample: the second widget draft's `renderApprovalCard`
interpolates the raw amount, so the non-negative amount 250 renders as
`"250"`, with zero decimal places rather than two. -/
theorem renderApprovalCard_integer_amount_no_decimals :
    dt250.amount = some 250 ∧ (0 : ℚ) ≤ 250 ∧
    (renderApprovalCard (some "abc123") dt250).amountText = "250" ∧
    digitsAfterPoint (renderApprovalCard (some "abc123") dt250).amountText = 0 := by
  decide

/-- Claim C8, amended: the app.js approval card renders a defined non-negative
amount via `toFixed(2)`, with exactly two decimal places; the part_001
`renderApprovalCard` interpolates the raw number instead, so there an integer
amount renders with no decimal places at all. -/
theorem appjs_card_amount_two_decimals (dt : Details) (a : ℚ)
    (h1 : dt.amount = some a) (h2 : 0 ≤ a) :
    digitsAfterPoint (mkCard dt).amountText = 2 := by
  simp only [mkCard, h1]
  exact toFixed2_digitsAfterPoint a

/-- Witness for the amended C8 at amount 250. -/
theorem appjs_card_amount_two_decimals_witness :
    digitsAfterPoint (mkCard dt250).amountText = 2 :=
  appjs_card_amount_two_decimals dt250 250 rfl (by decide)

/-- Claim C9: when the mic acquisition fails while not recording, the only
effect is the `ERROR_MIC` redraw — the current session id is untouched, the
approval card stays absent (the gate is never enabled), and no recording
starts. -/
theorem mic_failure_frame (s : AppState) (h : s.isRecording = false) :
    (toggleRecording s MicAccess.denied).currentSessionId = s.currentSessionId ∧
    (toggleRecording s MicAccess.denied).widget.statusCode = some "ERROR_MIC" ∧
    (toggleRecording s MicAccess.denied).widget.card = none ∧
    (toggleRecording s MicAccess.denied).isRecording = s.isRecording := by
  simp [toggleRecording, h, updateWidgetStatus, isPausedStatus]

/-- Witness for C9 at the concrete idle state. -/
theorem mic_failure_frame_witness :
    (toggleRecording s0 MicAccess.denied).currentSessionId = s0.currentSessionId ∧
    (toggleRecording s0 MicAccess.denied).widget.statusCode = some "ERROR_MIC" ∧
    (toggleRecording s0 MicAccess.denied).widget.card = none ∧
    (toggleRecording s0 MicAccess.denied).isRecording = s0.isRecording :=
  mic_failure_frame s0 rfl

/-- Claim C10: `handleDecision` with an absent session id, or with no socket
handle, emits nothing and leaves the state unchanged; in particular the
approval-card buttons built from details lacking a `session_id` produce no
decision. -/
theorem decision_requires_socket_and_session (s : AppState) (sock : Bool)
    (d : String) (sid : Option String) (dt : Details)
    (h : sid = none ∨ sock = false) (h2 : dt.session_id = none) :
    handleDecision s sock d sid = (s, []) ∧
    handleDecision s sock d (mkCard dt).buttonSessionId = (s, []) := by
  constructor
  · rcases h with h | h
    · subst h; rfl
    · subst h
      cases sid with
      | none => rfl
      | some x => simp [handleDecision]
  · simp [mkCard, h2, handleDecision]

/-- Witness for C10: a concrete decision call with no session id, and a card
built from details lacking a session id, both do nothing. -/
theorem decision_requires_socket_and_session_witness :
    handleDecision s0 true "approved" none = (s0, []) ∧
    handleDecision s0 true "approved" (mkCard dtNoSession).buttonSessionId = (s0, []) :=
  decision_requires_socket_and_session s0 true "approved" none dtNoSession (Or.inl rfl) rfl
